import Mathlib

/-!
Verification of the creative-analysis pipeline
(`creative_pipeline.py` and `ai_analysis.py`).

Dataframes are modelled as lists of rows.  A numeric cell is `Option ℚ`:
`none` stands for a missing value / NaN, `some v` for a finite value.
Pandas comparison semantics (`NaN` compares false) are captured by the
`pd...` helpers below; pandas column `max()` skips NaN, captured by
applying `colMax` to the `filterMap` of a column.
-/

namespace CreativePipeline

/-- One row of the raw export after column renaming and numeric coercion
(`COLUMN_MAPPING` and the `pd.to_numeric(..., errors = coerce)` loop of
`load_data`, creative_pipeline.py lines 63-82).  Only the columns used by
the analysed logic are kept. -/
structure RawRow where
  ad_name : String
  Spend : Option ℚ
  impressions : Option ℚ
  frequency : Option ℚ
  CTR_Raw : Option ℚ
  Outbound_Clicks : Option ℚ
  Conversions : Option ℚ
  CPA : Option ℚ
  ROAS_Purchase : Option ℚ
  ThruPlay_Raw : Option ℚ
deriving DecidableEq

/-- A row with the derived columns added by `load_data`
(creative_pipeline.py lines 84-99). -/
structure DerivedRow extends RawRow where
  CTR_Decimal : Option ℚ
  ThruPlay_Decimal : Option ℚ
  CVR_Decimal : ℚ
deriving DecidableEq

/-- A row carrying the `Creative_Score` column produced by
`rank_composite_score` (creative_pipeline.py lines 194-211). -/
structure ScoredRow extends DerivedRow where
  Creative_Score : Option ℚ
deriving DecidableEq

/-- Pandas `series >= c`: a NaN cell compares false. -/
def pdGe (x : Option ℚ) (c : ℚ) : Bool :=
  match x with
  | some v => decide (c ≤ v)
  | none => false

/-- Pandas `series > c`: a NaN cell compares false. -/
def pdGt (x : Option ℚ) (c : ℚ) : Bool :=
  match x with
  | some v => decide (c < v)
  | none => false

/-- Pandas `series < c`: a NaN cell compares false. -/
def pdLt (x : Option ℚ) (c : ℚ) : Bool :=
  match x with
  | some v => decide (v < c)
  | none => false

/-- NaN-propagating addition on cells (IEEE: `NaN + x = NaN`). -/
def oadd (a b : Option ℚ) : Option ℚ :=
  match a, b with
  | some x, some y => some (x + y)
  | _, _ => none

/-- NaN-propagating multiplication of a cell by a finite scalar. -/
def omul (a : Option ℚ) (c : ℚ) : Option ℚ :=
  match a with
  | some x => some (x * c)
  | none => none

/-- Pandas `series.max()`: skips NaN (the caller passes the `filterMap`
of a column), `none` when no finite value exists. -/
def colMax : List ℚ → Option ℚ
  | [] => none
  | x :: xs =>
    match colMax xs with
    | none => some x
    | some m => some (max x m)

/-- `MIN_SPEND` (creative_pipeline.py line 30). -/
def MIN_SPEND : ℚ := 50

/-- `MIN_IMPRESSIONS` (creative_pipeline.py line 31). -/
def MIN_IMPRESSIONS : ℚ := 1000

/-- `MIN_SPEND_FOR_RANKING` (creative_pipeline.py line 32). -/
def MIN_SPEND_FOR_RANKING : ℚ := 50

/-- `MAX_FREQUENCY` (creative_pipeline.py line 33). -/
def MAX_FREQUENCY : ℚ := 5

/-- The derivation step of `load_data` (creative_pipeline.py lines 84-99):
`CTR_Decimal = CTR_Raw / 100`, `ThruPlay_Decimal = ThruPlay_Raw / 100`,
and `CVR_Decimal = np.where(Outbound_Clicks > 0, Conversions / Outbound_Clicks, 0)`
followed by replacing infinities with NaN and `fillna(0)`, so `CVR_Decimal`
is always a finite number. -/
def deriveRow (r : RawRow) : DerivedRow :=
  { r with
    CTR_Decimal := r.CTR_Raw.map (fun x => x / 100)
    ThruPlay_Decimal := r.ThruPlay_Raw.map (fun x => x / 100)
    CVR_Decimal :=
      match r.Outbound_Clicks, r.Conversions with
      | some oc, some c => if 0 < oc then c / oc else 0
      | some _, none => 0
      | none, _ => 0 }

/-- The initial minimum-spend / minimum-impressions filter of `load_data`
(creative_pipeline.py lines 106-109). -/
def initialFilter (df : List DerivedRow) : List DerivedRow :=
  df.filter fun r => pdGe r.Spend MIN_SPEND && pdGe r.impressions MIN_IMPRESSIONS

/-- The final `dropna(subset = required_ranking_cols)` of `load_data`
(creative_pipeline.py lines 116-124): `ad_name` is a string and
`CVR_Decimal` is always finite, so the remaining requirements are the
four optional cells below. -/
def requiredRankingDrop (df : List DerivedRow) : List DerivedRow :=
  df.filter fun r =>
    r.Spend.isSome && r.CPA.isSome && r.ROAS_Purchase.isSome && r.CTR_Decimal.isSome

/-- `load_data` after the CSV has been parsed into rows
(creative_pipeline.py lines 62-127): derive, filter, drop incomplete rows. -/
def load_data (rows : List RawRow) : List DerivedRow :=
  requiredRankingDrop (initialFilter (rows.map deriveRow))

/-- The row filter of `rank_composite_score`
(creative_pipeline.py lines 177-180): `Spend > MIN_SPEND_FOR_RANKING`
and `frequency < MAX_FREQUENCY`, NaN comparing false. -/
def compFilter (r : DerivedRow) : Bool :=
  pdGt r.Spend MIN_SPEND_FOR_RANKING && pdLt r.frequency MAX_FREQUENCY

/-- The shared shape of the two normalizations of `rank_composite_score`
(creative_pipeline.py lines 188-192): divide the column by its max when
that max is positive, otherwise the scalar 0 (which pandas broadcasts to
every row, NaN rows included). -/
def normalize_by_max (colVals : List ℚ) (x : Option ℚ) : Option ℚ :=
  match colMax colVals with
  | some m => if 0 < m then x.map (fun v => v / m) else some 0
  | none => some 0

/-- `roas_norm` of `rank_composite_score` (creative_pipeline.py lines 188, 191). -/
def roas_norm (df_comp : List DerivedRow) (r : DerivedRow) : Option ℚ :=
  normalize_by_max (df_comp.filterMap (fun x => x.ROAS_Purchase)) r.ROAS_Purchase

/-- `thruplay_norm` of `rank_composite_score` (creative_pipeline.py lines 189, 192). -/
def thruplay_norm (df_comp : List DerivedRow) (r : DerivedRow) : Option ℚ :=
  normalize_by_max (df_comp.filterMap (fun x => x.ThruPlay_Decimal)) r.ThruPlay_Decimal

/-- The `Creative_Score` column of `rank_composite_score`
(creative_pipeline.py lines 195-200):
`CTR_Decimal * 0.4 + CVR_Decimal * 0.3 + roas_norm * 0.2 + thruplay_norm * 0.1`,
NaN-propagating. -/
def creativeScore (df_comp : List DerivedRow) (r : DerivedRow) : Option ℚ :=
  oadd (oadd (omul r.CTR_Decimal (4/10)) (some (r.CVR_Decimal * (3/10))))
    (oadd (omul (roas_norm df_comp r) (2/10)) (omul (thruplay_norm df_comp r) (1/10)))

/-- The merged dataframe returned (third) by `rank_composite_score`
(creative_pipeline.py lines 177-213): when the internal filter leaves
nothing, the input dataframe is returned unchanged, with no
`Creative_Score` column (modelled as `none`); otherwise
`data_frame.merge(df_comp[[ad_name, Creative_Score]], on = ad_name, how = left)`
followed by `fillna(0)` on the score.  A left merge pairs each input row
with every filtered row bearing the same `ad_name`, or with a NaN score
(then filled to 0) when there is none. -/
def rank_composite_score (data_frame : List DerivedRow) : List ScoredRow :=
  let df_comp := data_frame.filter compFilter
  if df_comp.isEmpty then
    data_frame.map (fun r => { toDerivedRow := r, Creative_Score := none })
  else
    data_frame.flatMap (fun r =>
      let ms := df_comp.filter (fun c => c.ad_name == r.ad_name)
      if ms.isEmpty then
        [{ toDerivedRow := r, Creative_Score := some 0 }]
      else
        ms.map (fun c =>
          { toDerivedRow := r, Creative_Score := some ((creativeScore df_comp c).getD 0) }))

/-- `max_score` of the dashboard preparation (creative_pipeline.py line 241):
pandas max over the `Creative_Score` column, skipping NaN. -/
def max_score (rows : List ScoredRow) : Option ℚ :=
  colMax (rows.filterMap (fun r => r.Creative_Score))

/-- The rescaling `(Creative_Score / max_score) * 100` of the dashboard
preparation (creative_pipeline.py lines 241-242).  The division is not
guarded: a zero `max_score` makes the float result NaN or infinite,
modelled as `none`; a NaN operand also yields `none`. -/
def rescaleDash (rows : List ScoredRow) : List (ScoredRow × Option ℚ) :=
  let m := max_score rows
  rows.map (fun r =>
    (r, match r.Creative_Score, m with
        | some s, some mx => if mx = 0 then none else some (s / mx * 100)
        | _, _ => none))

/-- The deterministic load-filter-derive-score-rescale pipeline as composed
by the `__main__` block (creative_pipeline.py lines 218-242). -/
def fullPipeline (rows : List RawRow) : List (ScoredRow × Option ℚ) :=
  rescaleDash (rank_composite_score (load_data rows))

/-! ### Run model: output artifacts of the two scripts (claim about atomicity).

`creative_pipeline.py` has no top-level `try/except`; its `__main__` block
(lines 216-366) runs, in order: load and score (no writes), the
`ai_correlation_data.csv` write (line 235), the dashboard preparation and
chart generation (lines 238-300, no writes), and the `dashboard.html`
write (lines 361-362).  `ai_analysis.py` wraps its whole `__main__` in one
`try/except` (lines 44-134) and performs its single write,
`final_ai_creative_report.csv`, as its last step (line 127).  A run is
modelled by an optional failure point: an unexpected exception at step `k`
(or a missing-input return, which skips every step) leaves exactly the
writes of the steps before `k` on disk. -/

/-- Output files of the two scripts. -/
inductive Artifact where
  | aiCorrelationCsv
  | dashboardHtml
  | finalReportCsv
deriving DecidableEq

/-- Files written by step `i` of the `creative_pipeline.py` main block
(4 steps: compute, csv write, chart building, dashboard write). -/
def cpWrites (i : ℕ) : List Artifact :=
  if i = 1 then [Artifact.aiCorrelationCsv]
  else if i = 3 then [Artifact.dashboardHtml] else []

/-- Number of steps of the `creative_pipeline.py` main block. -/
def cpSteps : ℕ := 4

/-- Files written by step `i` of the `ai_analysis.py` main block
(3 steps: load, mock analysis and correlation, final export). -/
def aiWrites (i : ℕ) : List Artifact :=
  if i = 2 then [Artifact.finalReportCsv] else []

/-- Number of steps of the `ai_analysis.py` main block. -/
def aiSteps : ℕ := 3

/-- The artifacts on disk after a run of a main block of `n` sequential
steps whose writes are `writes`, when the run fails (raises or
early-returns) at step `k` (`failAt = some k`) or completes
(`failAt = none`).  With no retry and no cleanup, exactly the writes of
the steps that ran before the failure remain. -/
def runArtifacts (writes : ℕ → List Artifact) (n : ℕ) (failAt : Option ℕ) :
    List Artifact :=
  (List.range n).flatMap fun i =>
    match failAt with
    | some k => if i < k then writes i else []
    | none => writes i

end CreativePipeline

namespace AiAnalysis

/-! ### The tag correlator of `ai_analysis.py` (lines 79-109).

One tag dimension is a list of `(tag value, Creative_Score)` pairs, one per
record.  The correlator groups by tag value, takes mean and count per
group, sorts the groups by mean descending, keeps those with count ≥ 3,
and when more than one remains compares best against worst. -/

/-- One row of `tag_summary`: a tag value with the mean and count of
`Creative_Score` in its group (ai_analysis.py line 84). -/
structure TagGroup where
  tag : String
  mean : ℚ
  count : ℕ
deriving DecidableEq

/-- The distinct tag values occurring in a dimension (the group keys of
`groupby`); the order is irrelevant, the summary is re-sorted by mean. -/
def distinctTags (recs : List (String × ℚ)) : List String :=
  recs.foldr (fun p acc => if p.1 ∈ acc then acc else p.1 :: acc) []

/-- The scores of the group of tag value `t`. -/
def groupScores (recs : List (String × ℚ)) (t : String) : List ℚ :=
  (recs.filter (fun p => p.1 == t)).map Prod.snd

/-- `groupby(col)[Creative_Score].agg([mean, count])`
(ai_analysis.py line 84), one `TagGroup` per distinct tag value. -/
def tagSummary (recs : List (String × ℚ)) : List TagGroup :=
  (distinctTags recs).map fun t =>
    let vs := groupScores recs t
    ⟨t, vs.sum / (vs.length : ℚ), vs.length⟩

/-- Insert a group into a list sorted by mean descending. -/
def insertDesc (g : TagGroup) : List TagGroup → List TagGroup
  | [] => [g]
  | h :: t => if h.mean < g.mean then g :: h :: t else h :: insertDesc g t

/-- `sort_values(by = mean, ascending = False)` (ai_analysis.py line 84). -/
def sortByMeanDesc : List TagGroup → List TagGroup
  | [] => []
  | g :: t => insertDesc g (sortByMeanDesc t)

/-- The qualifying groups: sorted by mean descending, then
`tag_summary[count] >= 3` (ai_analysis.py lines 84-87; the boolean filter
preserves the sorted order). -/
def qualifying (recs : List (String × ℚ)) : List TagGroup :=
  (sortByMeanDesc (tagSummary recs)).filter fun g => 3 ≤ g.count

/-- The mean of the last group of `g :: l` (`iloc[-1]`). -/
def lastMean (g : TagGroup) : List TagGroup → ℚ
  | [] => g.mean
  | h :: t => lastMean h t

/-- The kind of hypothesis the correlator can emit for one dimension. -/
inductive Hyp where
  | winning
  | losing
deriving DecidableEq

/-- `best_tag[mean]` (`iloc[0]` of the qualifying groups); 0 when there
are no qualifying groups. -/
def bestMean (recs : List (String × ℚ)) : ℚ :=
  match qualifying recs with
  | [] => 0
  | g :: _ => g.mean

/-- `worst_tag[mean]` (`iloc[-1]` of the qualifying groups); 0 when there
are no qualifying groups. -/
def worstMean (recs : List (String × ℚ)) : ℚ :=
  match qualifying recs with
  | [] => 0
  | g :: t => lastMean g t

/-- The hypothesis emitted for one tag dimension (ai_analysis.py lines
89-109): nothing unless more than one qualifying group; otherwise
`score_diff = (best_mean - worst_mean) / worst_mean * 100`, winning when
`score_diff > 10`, losing when `score_diff < -10`.  Python float division
by a zero `worst_mean` gives `+inf` (winning) when `best_mean > 0`, NaN
(no hypothesis) when `best_mean = 0`, and `-inf` (losing) when
`best_mean < 0`; that case split is written out explicitly. -/
def analyzeDimension (recs : List (String × ℚ)) : Option Hyp :=
  match qualifying recs with
  | [] => none
  | [_] => none
  | best :: g2 :: rest =>
    let b := best.mean
    let w := lastMean g2 rest
    if w = 0 then
      if 0 < b then some Hyp.winning
      else if b < 0 then some Hyp.losing
      else none
    else
      let d := (b - w) / w * 100
      if 10 < d then some Hyp.winning
      else if d < -10 then some Hyp.losing
      else none

/-- C5 witness data: two tag groups of three records each, with mean
composite scores 2 and 1. -/
def recs5 : List (String × ℚ) :=
  [("fast", 2), ("fast", 2), ("fast", 2), ("slow", 1), ("slow", 1), ("slow", 1)]

/-- C9 witness data: two tag groups of three records each, with mean
composite scores 6 and 3. -/
def recs9 : List (String × ℚ) :=
  [("X", 3), ("X", 3), ("X", 3), ("Y", 6), ("Y", 6), ("Y", 6)]

/-- C9 witness data: a dimension whose worst qualifying group has a
negative mean, making the losing branch reachable. -/
def recs9neg : List (String × ℚ) :=
  [("P", 0), ("P", 0), ("P", 0), ("N", -1), ("N", -1), ("N", -1)]

end AiAnalysis

namespace CreativePipeline

/-! ### Spec-side definitions, for comparison with the code. -/

/-- Min over a column, companion of `colMax` (used only to state the
spec's min-max formula). -/
def colMin : List ℚ → Option ℚ
  | [] => none
  | x :: xs =>
    match colMin xs with
    | none => some x
    | some m => some (min x m)

/-- The normalization the spec describes (§4.4 step 2):
`(value - min) / (max - min)`, or 0 uniformly if max = min.  Written from
the spec's words, to be compared with the code's normalization. -/
def specMinMaxNormalize (v mn mx : ℚ) : ℚ :=
  if mx = mn then 0 else (v - mn) / (mx - mn)

/-- The Quality-Filter predicate as the spec states it (§4.3): keep iff
spend ≥ MIN_SPEND and impressions ≥ MIN_IMPRESSIONS and spend > 0 and
purchases > 0.  Written from the spec's words, to be compared with
`initialFilter`. -/
def specQualityKeep (r : DerivedRow) : Bool :=
  pdGe r.Spend MIN_SPEND && pdGe r.impressions MIN_IMPRESSIONS &&
    pdGt r.Spend 0 && pdGt r.Conversions 0

/-- The ThruPlay derivation as the spec states it (§4.2):
`completions / impressions`, 0 on a zero or missing denominator.  Written
from the spec's words, to be compared with `deriveRow`. -/
def specThruPlay (r : RawRow) : ℚ :=
  match r.ThruPlay_Raw, r.impressions with
  | some c, some i => if i = 0 then 0 else c / i
  | _, _ => 0

/-- The CPA derivation as the spec states it (§4.2):
`spend / purchases`, 0 on a zero or missing denominator.  Written from
the spec's words, to be compared with `deriveRow`. -/
def specCPA (r : RawRow) : ℚ :=
  match r.Spend, r.Conversions with
  | some s, some p => if p = 0 then 0 else s / p
  | _, _ => 0

/-- The composite score the spec describes (§4.4 step 3):
`Σ weight_i * normalized_i` with the min-max normalization of §4.4 step 2
applied to each of the four configured metrics, with the code's weights.
Written from the spec's words, to be compared with `creativeScore`. -/
def specCompositeScore (df_comp : List DerivedRow) (r : DerivedRow) : ℚ :=
  let mmOf := fun (col : DerivedRow → Option ℚ) (v : ℚ) =>
    specMinMaxNormalize v ((colMin (df_comp.filterMap col)).getD 0)
      ((colMax (df_comp.filterMap col)).getD 0)
  mmOf (fun x => x.CTR_Decimal) (r.CTR_Decimal.getD 0) * (4/10) +
    mmOf (fun x => some x.CVR_Decimal) r.CVR_Decimal * (3/10) +
    mmOf (fun x => x.ROAS_Purchase) (r.ROAS_Purchase.getD 0) * (2/10) +
    mmOf (fun x => x.ThruPlay_Decimal) (r.ThruPlay_Decimal.getD 0) * (1/10)

/-- All metric values of a row that the composite score reads are
non-negative (a missing value counts as 0).  Real exports satisfy this;
it is the precondition for the score bounds. -/
def RowNonneg (r : DerivedRow) : Prop :=
  0 ≤ r.CTR_Decimal.getD 0 ∧ 0 ≤ r.CVR_Decimal ∧
    0 ≤ r.ROAS_Purchase.getD 0 ∧ 0 ≤ r.ThruPlay_Decimal.getD 0

/-! ### Concrete data used by counterexamples and witnesses. -/

/-- C1 data: a row passing the composite-score filter, ROAS 2. -/
def c1rowA : DerivedRow :=
  { ad_name := "a", Spend := some 100, impressions := some 2000,
    frequency := some 1, CTR_Raw := some 2, Outbound_Clicks := some 100,
    Conversions := some 10, CPA := some 10, ROAS_Purchase := some 2,
    ThruPlay_Raw := some 0, CTR_Decimal := some (1/50),
    ThruPlay_Decimal := some 0, CVR_Decimal := 1/10 }

/-- C1 data: the second row, ROAS 1. -/
def c1rowB : DerivedRow :=
  { ad_name := "b", Spend := some 100, impressions := some 2000,
    frequency := some 1, CTR_Raw := some 2, Outbound_Clicks := some 100,
    Conversions := some 10, CPA := some 10, ROAS_Purchase := some 1,
    ThruPlay_Raw := some 0, CTR_Decimal := some (1/50),
    ThruPlay_Decimal := some 0, CVR_Decimal := 1/10 }

/-- C2 data: a raw record with spend 100, impressions 2000, purchases 0. -/
def c2raw : RawRow :=
  { ad_name := "zero-purchases", Spend := some 100, impressions := some 2000,
    frequency := some 1, CTR_Raw := some 2, Outbound_Clicks := some 100,
    Conversions := some 0, CPA := some 10, ROAS_Purchase := some 1,
    ThruPlay_Raw := some 0 }

/-- C3 data: CTR decimal 1, ROAS 2. -/
def c3rowA : DerivedRow :=
  { ad_name := "a3", Spend := some 100, impressions := some 2000,
    frequency := some 1, CTR_Raw := some 100, Outbound_Clicks := some 100,
    Conversions := some 0, CPA := some 10, ROAS_Purchase := some 2,
    ThruPlay_Raw := some 0, CTR_Decimal := some 1,
    ThruPlay_Decimal := some 0, CVR_Decimal := 0 }

/-- C3 data: CTR decimal 0, ROAS 1. -/
def c3rowB : DerivedRow :=
  { ad_name := "b3", Spend := some 100, impressions := some 2000,
    frequency := some 1, CTR_Raw := some 0, Outbound_Clicks := some 100,
    Conversions := some 0, CPA := some 10, ROAS_Purchase := some 1,
    ThruPlay_Raw := some 0, CTR_Decimal := some 0,
    ThruPlay_Decimal := some 0, CVR_Decimal := 0 }

/-- C3 witness data: a single row with CTR decimal 1 and ROAS 2, whose
composite score is 3/5. -/
def c3wrow : DerivedRow :=
  { ad_name := "w3", Spend := some 100, impressions := some 2000,
    frequency := some 1, CTR_Raw := some 100, Outbound_Clicks := some 100,
    Conversions := some 0, CPA := some 10, ROAS_Purchase := some 2,
    ThruPlay_Raw := some 0, CTR_Decimal := some 1,
    ThruPlay_Decimal := some 0, CVR_Decimal := 0 }

/-- C4 data: ThruPlay raw count 50 over 2000 impressions, input CPA 7
while spend/purchases would be 10. -/
def c4raw : RawRow :=
  { ad_name := "thruplay", Spend := some 100, impressions := some 2000,
    frequency := some 1, CTR_Raw := some 2, Outbound_Clicks := some 100,
    Conversions := some 10, CPA := some 7, ROAS_Purchase := some 1,
    ThruPlay_Raw := some 50 }

/-- C4 witness data: zero outbound clicks. -/
def c4rawZero : RawRow :=
  { ad_name := "no-clicks", Spend := some 100, impressions := some 2000,
    frequency := some 1, CTR_Raw := some 2, Outbound_Clicks := some 0,
    Conversions := some 10, CPA := some 7, ROAS_Purchase := some 1,
    ThruPlay_Raw := some 0 }

/-- C6 failing input: a single record that passes every filter with all
performance metrics 0, so its composite score is 0 and the batch maximum
is 0. -/
def c6raw : RawRow :=
  { ad_name := "all-zero", Spend := some 100, impressions := some 2000,
    frequency := some 1, CTR_Raw := some 0, Outbound_Clicks := some 0,
    Conversions := some 0, CPA := some 10, ROAS_Purchase := some 0,
    ThruPlay_Raw := some 0 }

/-- C10 data: a row excluded from ranking (spend 40), named like the
included row `c10rowY`. -/
def c10rowX : DerivedRow :=
  { ad_name := "A", Spend := some 40, impressions := some 2000,
    frequency := some 1, CTR_Raw := some 0, Outbound_Clicks := some 0,
    Conversions := some 0, CPA := some 10, ROAS_Purchase := some 0,
    ThruPlay_Raw := some 0, CTR_Decimal := some 0,
    ThruPlay_Decimal := some 0, CVR_Decimal := 0 }

/-- C10 data: an included row with the same `ad_name` as `c10rowX` and
composite score 2/5. -/
def c10rowY : DerivedRow :=
  { ad_name := "A", Spend := some 100, impressions := some 2000,
    frequency := some 1, CTR_Raw := some 100, Outbound_Clicks := some 0,
    Conversions := some 0, CPA := some 10, ROAS_Purchase := some 0,
    ThruPlay_Raw := some 0, CTR_Decimal := some 1,
    ThruPlay_Decimal := some 0, CVR_Decimal := 0 }

/-- C10 witness data: an excluded row with a distinct name. -/
def c10wA : DerivedRow :=
  { ad_name := "A", Spend := some 40, impressions := some 2000,
    frequency := some 1, CTR_Raw := some 0, Outbound_Clicks := some 0,
    Conversions := some 0, CPA := some 10, ROAS_Purchase := some 0,
    ThruPlay_Raw := some 0, CTR_Decimal := some 0,
    ThruPlay_Decimal := some 0, CVR_Decimal := 0 }

/-- C10 witness data: an included row named differently from `c10wA`. -/
def c10wB : DerivedRow :=
  { ad_name := "B", Spend := some 100, impressions := some 2000,
    frequency := some 1, CTR_Raw := some 100, Outbound_Clicks := some 0,
    Conversions := some 0, CPA := some 10, ROAS_Purchase := some 0,
    ThruPlay_Raw := some 0, CTR_Decimal := some 1,
    ThruPlay_Decimal := some 0, CVR_Decimal := 0 }

/-! ### Helper lemmas about column maxima and the code's normalization. -/

theorem colMax_ne_none {l : List ℚ} (h : l ≠ []) : ∃ m, colMax l = some m := by
  cases l with
  | nil => exact absurd rfl h
  | cons x xs => cases hx : colMax xs <;> simp [colMax, hx]

theorem le_colMax_of_mem {l : List ℚ} {x m : ℚ} (hx : x ∈ l)
    (hm : colMax l = some m) : x ≤ m := by
  induction l generalizing m with
  | nil => cases hx
  | cons y ys ih =>
    cases hys : colMax ys with
    | none =>
      have hcons : colMax (y :: ys) = some y := by simp [colMax, hys]
      rw [hcons] at hm
      injection hm with hm
      subst hm
      rcases List.mem_cons.mp hx with rfl | hxs
      · exact le_refl x
      · obtain ⟨m0, h0⟩ := colMax_ne_none (List.ne_nil_of_mem hxs)
        rw [hys] at h0
        cases h0
    | some m0 =>
      have hcons : colMax (y :: ys) = some (max y m0) := by simp [colMax, hys]
      rw [hcons] at hm
      injection hm with hm
      subst hm
      rcases List.mem_cons.mp hx with rfl | hxs
      · exact le_max_left _ _
      · exact (ih hxs hys).trans (le_max_right _ _)

theorem colMax_mem {l : List ℚ} {m : ℚ} (hm : colMax l = some m) : m ∈ l := by
  induction l generalizing m with
  | nil => cases hm
  | cons y ys ih =>
    cases hys : colMax ys with
    | none =>
      have hcons : colMax (y :: ys) = some y := by simp [colMax, hys]
      rw [hcons] at hm
      injection hm with hm
      subst hm
      exact List.mem_cons_self _ _
    | some m0 =>
      have hcons : colMax (y :: ys) = some (max y m0) := by simp [colMax, hys]
      rw [hcons] at hm
      injection hm with hm
      subst hm
      rcases max_choice y m0 with h | h
      · rw [h]; exact List.mem_cons_self _ _
      · rw [h]; exact List.mem_cons_of_mem _ (ih hys)

theorem normalize_by_max_spec {colVals : List ℚ} {x : Option ℚ} {v : ℚ}
    (hv : x = some v) (hmem : v ∈ colVals) (hnn : ∀ u ∈ colVals, 0 ≤ u) :
    ∃ q, normalize_by_max colVals x = some q ∧ 0 ≤ q ∧ q ≤ 1 ∧
      ((∃ m, colMax colVals = some m ∧ 0 < m ∧ q = v / m) ∨ q = 0) := by
  obtain ⟨m, hm⟩ := colMax_ne_none (List.ne_nil_of_mem hmem)
  have hvm : v ≤ m := le_colMax_of_mem hmem hm
  have hv0 : 0 ≤ v := hnn v hmem
  have hred : normalize_by_max colVals x = if 0 < m then some (v / m) else some 0 := by
    simp only [normalize_by_max, hm, hv, Option.map_some']
  by_cases hpos : 0 < m
  · refine ⟨v / m, ?_, div_nonneg hv0 (le_of_lt hpos), ?_, Or.inl ⟨m, hm, hpos, rfl⟩⟩
    · rw [hred, if_pos hpos]
    · exact (div_le_one hpos).mpr hvm
  · refine ⟨0, ?_, le_refl 0, by norm_num, Or.inr rfl⟩
    rw [hred, if_neg hpos]

theorem normalize_by_max_nonneg {colVals : List ℚ} {x : Option ℚ} {q : ℚ}
    (hx : 0 ≤ x.getD 0) (hq : normalize_by_max colVals x = some q) : 0 ≤ q := by
  cases hcm : colMax colVals with
  | none =>
    simp only [normalize_by_max, hcm] at hq
    injection hq with hq
    rw [← hq]
  | some m =>
    simp only [normalize_by_max, hcm] at hq
    by_cases hpos : 0 < m
    · rw [if_pos hpos] at hq
      cases hxv : x with
      | none => rw [hxv] at hq; cases hq
      | some v =>
        rw [hxv] at hq
        injection hq with hq
        rw [hxv] at hx
        simp only [Option.getD_some] at hx
        rw [← hq]
        exact div_nonneg hx (le_of_lt hpos)
    · rw [if_neg hpos] at hq
      injection hq with hq
      rw [← hq]

/-! ### Claim C1: the Scorer's normalization. -/

/-- Claim C1 is false as stated: on the filtered two-record set
`[c1rowA, c1rowB]` (both records pass the composite filter), the ROAS
column has min 1 and max 2, so the spec's `(value - min)/(max - min)`
normalization of the second record is 0, but the code
(`rank_composite_score`, lines 188/191) normalizes by dividing by the max
and yields 1/2. -/
theorem c1_counterexample :
    ([c1rowA, c1rowB].filter compFilter = [c1rowA, c1rowB]) ∧
    colMin ([c1rowA, c1rowB].filterMap (fun x => x.ROAS_Purchase)) = some 1 ∧
    colMax ([c1rowA, c1rowB].filterMap (fun x => x.ROAS_Purchase)) = some 2 ∧
    roas_norm [c1rowA, c1rowB] c1rowB = some (1/2) ∧
    specMinMaxNormalize 1 1 2 = 0 ∧ (1 : ℚ)/2 ≠ 0 := by
  refine ⟨?_, ?_, ?_, ?_, ?_, by norm_num⟩
  · norm_num [List.filter, compFilter, pdGt, pdLt, c1rowA, c1rowB,
      MIN_SPEND_FOR_RANKING, MAX_FREQUENCY]
  · norm_num [List.filterMap, colMin, c1rowA, c1rowB, min_def]
  · norm_num [List.filterMap, colMax, c1rowA, c1rowB, max_def]
  · norm_num [roas_norm, normalize_by_max, List.filterMap, colMax,
      c1rowA, c1rowB, max_def]
  · norm_num [specMinMaxNormalize]

/-- Claim C1 (amended): the code normalizes only ROAS and ThruPlay, as
`value / max` over the current record set when that max is positive and 0
uniformly otherwise (CTR and CVR enter the composite unnormalized); for a
record whose value is present and with non-negative column values the
normalized value is a finite number in [0, 1] — never NaN — equal to
`value / max` when the column max is positive and 0 otherwise. -/
theorem c1_normalization_amended (df : List DerivedRow) (r : DerivedRow) (v w : ℚ)
    (hr : r ∈ df)
    (hv : r.ROAS_Purchase = some v) (hw : r.ThruPlay_Decimal = some w)
    (hnnR : ∀ x ∈ df, 0 ≤ x.ROAS_Purchase.getD 0)
    (hnnT : ∀ x ∈ df, 0 ≤ x.ThruPlay_Decimal.getD 0) :
    (∃ q, roas_norm df r = some q ∧ 0 ≤ q ∧ q ≤ 1 ∧
      ((∃ m, colMax (df.filterMap (fun x => x.ROAS_Purchase)) = some m ∧
        0 < m ∧ q = v / m) ∨ q = 0)) ∧
    (∃ q, thruplay_norm df r = some q ∧ 0 ≤ q ∧ q ≤ 1 ∧
      ((∃ m, colMax (df.filterMap (fun x => x.ThruPlay_Decimal)) = some m ∧
        0 < m ∧ q = w / m) ∨ q = 0)) := by
  constructor
  · apply normalize_by_max_spec hv
    · exact List.mem_filterMap.mpr ⟨r, hr, hv⟩
    · intro u hu
      obtain ⟨x, hx, hxu⟩ := List.mem_filterMap.mp hu
      have := hnnR x hx
      rw [hxu] at this
      exact this
  · apply normalize_by_max_spec hw
    · exact List.mem_filterMap.mpr ⟨r, hr, hw⟩
    · intro u hu
      obtain ⟨x, hx, hxu⟩ := List.mem_filterMap.mp hu
      have := hnnT x hx
      rw [hxu] at this
      exact this

/-- Witness for `c1_normalization_amended` at the concrete two-record set. -/
theorem c1_normalization_amended_witness :
    (∃ q, roas_norm [c1rowA, c1rowB] c1rowB = some q ∧ 0 ≤ q ∧ q ≤ 1 ∧
      ((∃ m, colMax ([c1rowA, c1rowB].filterMap (fun x => x.ROAS_Purchase)) = some m ∧
        0 < m ∧ q = 1 / m) ∨ q = 0)) ∧
    (∃ q, thruplay_norm [c1rowA, c1rowB] c1rowB = some q ∧ 0 ≤ q ∧ q ≤ 1 ∧
      ((∃ m, colMax ([c1rowA, c1rowB].filterMap (fun x => x.ThruPlay_Decimal)) = some m ∧
        0 < m ∧ q = 0 / m) ∨ q = 0)) :=
  c1_normalization_amended [c1rowA, c1rowB] c1rowB 1 0 (by simp) rfl rfl
    (by intro x hx; fin_cases hx <;> norm_num [c1rowA, c1rowB])
    (by intro x hx; fin_cases hx <;> norm_num [c1rowA, c1rowB])

/-! ### Claim C2: the Quality Filter. -/

/-- Claim C2 is false as stated: a record with spend and impressions above
the thresholds but purchases = 0 is kept by `load_data` (the code's filter
at lines 106-109 checks only spend and impressions) and even reaches the
composite scoring (it passes `compFilter`), whereas the spec's predicate
(with its `purchases > 0` conjunct) rejects it. -/
theorem c2_counterexample :
    load_data [c2raw] = [deriveRow c2raw] ∧
    compFilter (deriveRow c2raw) = true ∧
    specQualityKeep (deriveRow c2raw) = false := by
  refine ⟨?_, ?_, ?_⟩
  · norm_num [load_data, requiredRankingDrop, initialFilter, List.filter,
      List.map, deriveRow, c2raw, pdGe, MIN_SPEND, MIN_IMPRESSIONS]
  · norm_num [compFilter, pdGt, pdLt, deriveRow, c2raw,
      MIN_SPEND_FOR_RANKING, MAX_FREQUENCY]
  · norm_num [specQualityKeep, pdGe, pdGt, deriveRow, c2raw,
      MIN_SPEND, MIN_IMPRESSIONS]

/-- Claim C2 (amended): the filter of `load_data` keeps a record iff
spend ≥ MIN_SPEND and impressions ≥ MIN_IMPRESSIONS (a missing value
fails the comparison); it imposes no `spend > 0` and no `purchases > 0`
condition. -/
theorem c2_filter_amended (rows : List DerivedRow) (r : DerivedRow) :
    r ∈ initialFilter rows ↔
      r ∈ rows ∧ (pdGe r.Spend MIN_SPEND && pdGe r.impressions MIN_IMPRESSIONS) = true := by
  simp [initialFilter, List.mem_filter]

/-! ### Claim C4: the Derivation stage. -/

/-- Claim C4 is false as stated: on a record with 50 raw ThruPlay
completions and 2000 impressions the code (`load_data`, lines 90-91)
computes `ThruPlay_Decimal = ThruPlay_Raw / 100 = 1/2`, not the spec's
`completions / impressions = 1/40`; and the code never computes
`CPA = spend / purchases` — the input's cost-per-result column (7) is
passed through although spend/purchases is 10. -/
theorem c4_counterexample :
    (deriveRow c4raw).ThruPlay_Decimal = some (1/2) ∧
    specThruPlay c4raw = 1/40 ∧ (1 : ℚ)/2 ≠ 1/40 ∧
    (deriveRow c4raw).CPA = some 7 ∧
    specCPA c4raw = 10 ∧ (7 : ℚ) ≠ 10 := by
  refine ⟨?_, ?_, by norm_num, rfl, ?_, by norm_num⟩
  · norm_num [deriveRow, c4raw]
  · norm_num [specThruPlay, c4raw]
  · norm_num [specCPA, c4raw]

/-- Claim C4 (amended): the Derivation stage computes
`CVR = purchases / outbound_clicks`, where a missing or non-positive
denominator (or a missing numerator) yields exactly 0 and the result is
always a finite number; `CTR_decimal` and `ThruPlay_decimal` are both the
raw column divided by 100 (ThruPlay is not completions/impressions); and
CPA is passed through from the input unchanged, not computed. -/
theorem c4_derivation_amended (r : RawRow) :
    (deriveRow r).CTR_Decimal = r.CTR_Raw.map (fun x => x / 100) ∧
    (deriveRow r).ThruPlay_Decimal = r.ThruPlay_Raw.map (fun x => x / 100) ∧
    (deriveRow r).CPA = r.CPA ∧
    (∀ oc c, r.Outbound_Clicks = some oc → r.Conversions = some c →
      0 < oc → (deriveRow r).CVR_Decimal = c / oc) ∧
    (∀ oc, r.Outbound_Clicks = some oc → oc ≤ 0 → (deriveRow r).CVR_Decimal = 0) ∧
    (r.Outbound_Clicks = none → (deriveRow r).CVR_Decimal = 0) := by
  refine ⟨rfl, rfl, rfl, ?_, ?_, ?_⟩
  · intro oc c hoc hc hpos
    simp [deriveRow, hoc, hc, hpos]
  · intro oc hoc hle
    have : ¬ 0 < oc := not_lt.mpr hle
    cases hc : r.Conversions <;> simp [deriveRow, hoc, hc, this]
  · intro hoc
    simp [deriveRow, hoc]

/-- Witness for `c4_derivation_amended`: the division branch on `c4raw`
(100 outbound clicks, 10 purchases) and the guarded branch on
`c4rawZero` (0 outbound clicks). -/
theorem c4_derivation_amended_witness :
    (deriveRow c4raw).CVR_Decimal = 10 / 100 ∧
    (deriveRow c4rawZero).CVR_Decimal = 0 :=
  ⟨(c4_derivation_amended c4raw).2.2.2.1 100 10 rfl rfl (by norm_num),
   (c4_derivation_amended c4rawZero).2.2.2.2.1 0 rfl le_rfl⟩

/-! ### Claim C6: the unguarded rescale division. -/

/-- Claim C6 fails on the code: for the single all-zero-metric record
`c6raw` that survives every filter, the composite score and the batch
maximum are both 0, and the dashboard rescale
`(Creative_Score / max_score) * 100` (creative_pipeline.py lines 241-242)
divides 0 by 0 with no guard, yielding a non-finite value (`none`, the
model of NaN). -/
theorem c6_unguarded_rescale :
    (rank_composite_score (load_data [c6raw])).map (fun r => r.Creative_Score)
      = [some 0] ∧
    (rescaleDash (rank_composite_score (load_data [c6raw]))).map Prod.snd = [none] := by
  have hload : load_data [c6raw] = [deriveRow c6raw] := by
    norm_num [load_data, requiredRankingDrop, initialFilter, List.filter,
      List.map, deriveRow, c6raw, pdGe, MIN_SPEND, MIN_IMPRESSIONS]
  have hrank : rank_composite_score [deriveRow c6raw] =
      [{ toDerivedRow := deriveRow c6raw, Creative_Score := some 0 }] := by
    norm_num [rank_composite_score, compFilter, pdGt, pdLt, deriveRow, c6raw,
      MIN_SPEND_FOR_RANKING, MAX_FREQUENCY, List.filter, List.flatMap,
      creativeScore, oadd, omul, roas_norm, thruplay_norm, normalize_by_max,
      colMax, List.filterMap]
  rw [hload, hrank]
  refine ⟨rfl, ?_⟩
  norm_num [rescaleDash, max_score, List.filterMap, colMax]

/-! ### Claim C7: atomicity of output artifacts. -/

/-- Claim C7 is false as stated: `creative_pipeline.py` has no top-level
exception handler, so a run-level failure in the chart-generation or
dashboard-write step (step 3), after the `ai_correlation_data.csv` write
(step 1), leaves exactly one of the two artifacts written — a state the
claim says never exists. -/
theorem c7_counterexample :
    runArtifacts cpWrites cpSteps (some 3) = [Artifact.aiCorrelationCsv] ∧
    runArtifacts cpWrites cpSteps (some 3) ≠ [] ∧
    runArtifacts cpWrites cpSteps (some 3) ≠
      [Artifact.aiCorrelationCsv, Artifact.dashboardHtml] := by
  refine ⟨by decide, by decide, by decide⟩

/-- Claim C7 (amended): a `creative_pipeline.py` run that fails at or
before the CSV-export step writes nothing, a completed run writes both
artifacts, but a failure strictly after the CSV export writes exactly the
CSV (partial output); `ai_analysis.py`, whose single write is its last
step inside the one try/except, writes either nothing or its one
artifact. -/
theorem c7_artifacts_amended :
    (∀ k, k ≤ 1 → runArtifacts cpWrites cpSteps (some k) = []) ∧
    runArtifacts cpWrites cpSteps none =
      [Artifact.aiCorrelationCsv, Artifact.dashboardHtml] ∧
    (∀ k, 2 ≤ k → k ≤ 3 → runArtifacts cpWrites cpSteps (some k)
      = [Artifact.aiCorrelationCsv]) ∧
    (∀ f : Option ℕ, runArtifacts aiWrites aiSteps f = [] ∨
      runArtifacts aiWrites aiSteps f = [Artifact.finalReportCsv]) := by
  refine ⟨?_, by decide, ?_, ?_⟩
  · intro k hk
    interval_cases k <;> decide
  · intro k hk2 hk3
    interval_cases k <;> decide
  · intro f
    rcases f with _ | k
    · right; decide
    · match k with
      | 0 => left; decide
      | 1 => left; decide
      | 2 => left; decide
      | (k2 + 3) =>
        right
        have h0 : 0 < k2 + 3 := by omega
        have h1 : 1 < k2 + 3 := by omega
        have h2 : 2 < k2 + 3 := by omega
        simp [runArtifacts, aiSteps, aiWrites, List.range_succ, h0, h1, h2]

/-- Witness for `c7_artifacts_amended` at concrete failure points. -/
theorem c7_artifacts_amended_witness :
    runArtifacts cpWrites cpSteps (some 0) = [] ∧
    runArtifacts cpWrites cpSteps (some 2) = [Artifact.aiCorrelationCsv] ∧
    (runArtifacts aiWrites aiSteps (some 2) = [] ∨
      runArtifacts aiWrites aiSteps (some 2) = [Artifact.finalReportCsv]) :=
  ⟨c7_artifacts_amended.1 0 (by omega),
   c7_artifacts_amended.2.2.1 2 (by omega) (by omega),
   c7_artifacts_amended.2.2.2 (some 2)⟩

/-! ### Claim C8: determinism of the scoring pipeline. -/

/-- Claim C8: the load-derive-filter-score-rescale pipeline is a pure
function of its input rows — two runs on identical input produce
identical cleaned data, identical merged scores, and identical rescaled
dashboard values.  (The only randomness in the system is
`ai_analysis.py`'s `mock_vision_ai_analysis` tag assignment, outside this
pipeline.) -/
theorem c8_determinism (rows1 rows2 : List RawRow) (h : rows1 = rows2) :
    fullPipeline rows1 = fullPipeline rows2 ∧
    load_data rows1 = load_data rows2 ∧
    rank_composite_score (load_data rows1) = rank_composite_score (load_data rows2) := by
  subst h
  exact ⟨rfl, rfl, rfl⟩

/-- Witness for `c8_determinism` at a concrete input. -/
theorem c8_determinism_witness :
    fullPipeline [c6raw] = fullPipeline [c6raw] ∧
    load_data [c6raw] = load_data [c6raw] ∧
    rank_composite_score (load_data [c6raw]) = rank_composite_score (load_data [c6raw]) :=
  c8_determinism [c6raw] [c6raw] rfl

/-! ### Lemmas about `creativeScore` and the merge of `rank_composite_score`. -/

theorem creativeScore_eq {df_comp : List DerivedRow} {r : DerivedRow} {s : ℚ}
    (h : creativeScore df_comp r = some s) :
    ∃ t q1 q2, r.CTR_Decimal = some t ∧ roas_norm df_comp r = some q1 ∧
      thruplay_norm df_comp r = some q2 ∧
      s = t * (4/10) + r.CVR_Decimal * (3/10) + (q1 * (2/10) + q2 * (1/10)) := by
  cases hc : r.CTR_Decimal with
  | none => simp [creativeScore, oadd, omul, hc] at h
  | some t =>
    cases h1 : roas_norm df_comp r with
    | none => simp [creativeScore, oadd, omul, hc, h1] at h
    | some q1 =>
      cases h2 : thruplay_norm df_comp r with
      | none => simp [creativeScore, oadd, omul, hc, h1, h2] at h
      | some q2 =>
        refine ⟨t, q1, q2, rfl, rfl, rfl, ?_⟩
        simp only [creativeScore, oadd, omul, hc, h1, h2, Option.some.injEq] at h
        linarith [h]

theorem creativeScore_nonneg {df_comp : List DerivedRow} {r : DerivedRow} {s : ℚ}
    (hnn : RowNonneg r) (h : creativeScore df_comp r = some s) : 0 ≤ s := by
  obtain ⟨t, q1, q2, hc, h1, h2, hs⟩ := creativeScore_eq h
  obtain ⟨hCTR, hCVR, hROAS, hThru⟩ := hnn
  have ht : 0 ≤ t := by rw [hc] at hCTR; simpa using hCTR
  have hq1 : 0 ≤ q1 := normalize_by_max_nonneg hROAS (by simpa [roas_norm] using h1)
  have hq2 : 0 ≤ q2 := normalize_by_max_nonneg hThru (by simpa [thruplay_norm] using h2)
  have w1 : (0:ℚ) ≤ t * (4/10) := mul_nonneg ht (by norm_num)
  have w2 : (0:ℚ) ≤ r.CVR_Decimal * (3/10) := mul_nonneg hCVR (by norm_num)
  have w3 : (0:ℚ) ≤ q1 * (2/10) := mul_nonneg hq1 (by norm_num)
  have w4 : (0:ℚ) ≤ q2 * (1/10) := mul_nonneg hq2 (by norm_num)
  rw [hs]
  linarith

theorem rank_composite_scores_none {df : List DerivedRow}
    (he : (df.filter compFilter).isEmpty = true) :
    ∀ x ∈ rank_composite_score df, x.Creative_Score = none := by
  intro x hx
  simp only [rank_composite_score, he, if_true] at hx
  obtain ⟨r, _, rfl⟩ := List.mem_map.mp hx
  rfl

theorem rank_composite_score_eq_flatMap {df : List DerivedRow}
    (hne : (df.filter compFilter).isEmpty = false) :
    rank_composite_score df = df.flatMap (fun r =>
      if ((df.filter compFilter).filter (fun c => c.ad_name == r.ad_name)).isEmpty then
        [{ toDerivedRow := r, Creative_Score := some 0 }]
      else
        ((df.filter compFilter).filter (fun c => c.ad_name == r.ad_name)).map (fun c =>
          { toDerivedRow := r,
            Creative_Score := some ((creativeScore (df.filter compFilter) c).getD 0) })) := by
  simp only [rank_composite_score]
  rw [hne, if_neg Bool.false_ne_true]

theorem rank_composite_scores_some {df : List DerivedRow}
    (hne : (df.filter compFilter).isEmpty = false) :
    ∀ x ∈ rank_composite_score df, ∃ s, x.Creative_Score = some s ∧
      (s = 0 ∨ ∃ c ∈ df.filter compFilter,
        creativeScore (df.filter compFilter) c = some s) := by
  intro x hx
  rw [rank_composite_score_eq_flatMap hne] at hx
  obtain ⟨r, hr, hxr⟩ := List.mem_flatMap.mp hx
  by_cases hE : ((df.filter compFilter).filter (fun c => c.ad_name == r.ad_name)).isEmpty = true
  · rw [if_pos hE] at hxr
    rw [List.mem_singleton.mp hxr]
    exact ⟨0, rfl, Or.inl rfl⟩
  · rw [if_neg hE] at hxr
    obtain ⟨c, hc, rfl⟩ := List.mem_map.mp hxr
    have hcmem : c ∈ df.filter compFilter := List.mem_of_mem_filter hc
    cases hsc : creativeScore (df.filter compFilter) c with
    | none => exact ⟨0, by simp [hsc], Or.inl rfl⟩
    | some t => exact ⟨t, by simp [hsc], Or.inr ⟨c, hcmem, hsc⟩⟩

/-! ### Claim C3: the composite score and its rescaling. -/

/-- Claim C3 is false as stated: on the filtered two-record set
`[c3rowA, c3rowB]` the code's composite score of the second record is
1/10 (its ROAS, divided by the column max 2, times weight 0.2 — CTR and
CVR enter unnormalized), while the spec's weighted sum of min-max
normalized metrics is 0. -/
theorem c3_counterexample :
    ([c3rowA, c3rowB].filter compFilter = [c3rowA, c3rowB]) ∧
    creativeScore [c3rowA, c3rowB] c3rowB = some (1/10) ∧
    specCompositeScore [c3rowA, c3rowB] c3rowB = 0 ∧ (1 : ℚ)/10 ≠ 0 := by
  refine ⟨?_, ?_, ?_, by norm_num⟩
  · norm_num [List.filter, compFilter, pdGt, pdLt, c3rowA, c3rowB,
      MIN_SPEND_FOR_RANKING, MAX_FREQUENCY]
  · norm_num [creativeScore, oadd, omul, roas_norm, thruplay_norm,
      normalize_by_max, colMax, List.filterMap, c3rowA, c3rowB, max_def]
  · norm_num [specCompositeScore, specMinMaxNormalize, colMin, colMax,
      List.filterMap, c3rowA, c3rowB, max_def, min_def]

/-- Claim C3 (amended): the composite score is the code's weighted sum
(raw CTR and CVR, max-normalized ROAS and ThruPlay); given metric-wise
non-negative rows and a positive batch maximum `m` of the merged
`Creative_Score` column, every rescaled dashboard score is a finite value
in [0, 100], every record whose composite equals `m` rescales to exactly
100, and some record does. -/
theorem c3_rescale_amended (df : List DerivedRow)
    (hnn : ∀ r ∈ df, RowNonneg r) (m : ℚ)
    (hm : max_score (rank_composite_score df) = some m) (hmpos : 0 < m) :
    (∀ p ∈ rescaleDash (rank_composite_score df),
      ∃ v, p.2 = some v ∧ 0 ≤ v ∧ v ≤ 100) ∧
    (∀ p ∈ rescaleDash (rank_composite_score df),
      p.1.Creative_Score = some m → p.2 = some 100) ∧
    (∃ p ∈ rescaleDash (rank_composite_score df), p.2 = some 100) := by
  have hm0 : m ≠ 0 := ne_of_gt hmpos
  have hcm : colMax ((rank_composite_score df).filterMap (fun r => r.Creative_Score))
      = some m := hm
  have h100 : m / m * 100 = 100 := by
    rw [div_self hm0, one_mul]
  cases hE : (df.filter compFilter).isEmpty with
  | true =>
    exfalso
    have hfm : (rank_composite_score df).filterMap (fun r => r.Creative_Score) = [] :=
      List.filterMap_eq_nil_iff.mpr (rank_composite_scores_none hE)
    rw [hfm] at hcm
    cases hcm
  | false =>
    have hbound : ∀ x ∈ rank_composite_score df,
        ∃ s, x.Creative_Score = some s ∧ 0 ≤ s ∧ s ≤ m := by
      intro x hx
      obtain ⟨s, hs, hcase⟩ := rank_composite_scores_some hE x hx
      refine ⟨s, hs, ?_, ?_⟩
      · rcases hcase with rfl | ⟨c, hc, hsc⟩
        · exact le_refl 0
        · exact creativeScore_nonneg (hnn c (List.mem_of_mem_filter hc)) hsc
      · exact le_colMax_of_mem (List.mem_filterMap.mpr ⟨x, hx, hs⟩) hcm
    have hval : ∀ x ∈ rank_composite_score df, ∀ s, x.Creative_Score = some s →
        (match x.Creative_Score, max_score (rank_composite_score df) with
          | some s, some mx => if mx = 0 then none else some (s / mx * 100)
          | _, _ => none) = some (s / m * 100) := by
      intro x _ s hs
      rw [hs, hm]
      simp [hm0]
    refine ⟨?_, ?_, ?_⟩
    · intro p hp
      obtain ⟨x, hx, rfl⟩ := List.mem_map.mp hp
      obtain ⟨s, hs, h0, hle⟩ := hbound x hx
      refine ⟨s / m * 100, hval x hx s hs, ?_, ?_⟩
      · exact mul_nonneg (div_nonneg h0 (le_of_lt hmpos)) (by norm_num)
      · calc s / m * 100 ≤ 1 * 100 :=
              mul_le_mul_of_nonneg_right ((div_le_one hmpos).mpr hle) (by norm_num)
          _ = 100 := one_mul 100
    · intro p hp hpm
      obtain ⟨x, hx, rfl⟩ := List.mem_map.mp hp
      have := hval x hx m hpm
      rw [h100] at this
      exact this
    · obtain ⟨x, hx, hxm⟩ := List.mem_filterMap.mp (colMax_mem hcm)
      refine ⟨_, List.mem_map.mpr ⟨x, hx, rfl⟩, ?_⟩
      have := hval x hx m hxm
      rw [h100] at this
      exact this

/-- Witness for `c3_rescale_amended` at the single-record batch
`[c3wrow]` with composite score 3/5. -/
theorem c3_rescale_amended_witness :
    ∃ p ∈ rescaleDash (rank_composite_score [c3wrow]), p.2 = some 100 :=
  (c3_rescale_amended [c3wrow]
    (by intro r hr; fin_cases hr <;> norm_num [RowNonneg, c3wrow])
    (3/5)
    (by norm_num [max_score, rank_composite_score, compFilter, pdGt, pdLt,
      c3wrow, MIN_SPEND_FOR_RANKING, MAX_FREQUENCY, List.filter, List.flatMap,
      creativeScore, oadd, omul, roas_norm, thruplay_norm, normalize_by_max,
      colMax, List.filterMap])
    (by norm_num)).2.2

/-! ### Claim C10: the merge back of scores. -/

theorem filter_filter_and {α : Type _} (p q : α → Bool) (l : List α) :
    (l.filter p).filter q = l.filter (fun a => p a && q a) := by
  induction l with
  | nil => rfl
  | cons a t ih =>
    cases hp : p a <;> cases hq : q a <;>
      simp [List.filter_cons, hp, hq, ih]

theorem filter_nameEq {df : List DerivedRow}
    (hnd : df.Pairwise (fun a b => a.ad_name ≠ b.ad_name)) {r : DerivedRow}
    (hr : r ∈ df) (q : DerivedRow → Bool) :
    df.filter (fun c => q c && (c.ad_name == r.ad_name)) =
      if q r then [r] else [] := by
  induction df with
  | nil => cases hr
  | cons a t ih =>
    rw [List.pairwise_cons] at hnd
    obtain ⟨ha, ht⟩ := hnd
    rcases List.mem_cons.mp hr with rfl | hrt
    · have htail : t.filter (fun c => q c && (c.ad_name == r.ad_name)) = [] := by
        apply List.filter_eq_nil_iff.mpr
        intro c hc
        have hfa : (c.ad_name == r.ad_name) = false :=
          beq_eq_false_iff_ne.mpr (Ne.symm (ha c hc))
        simp [hfa]
      cases hq : q r <;> simp [List.filter_cons, htail, hq]
    · have hfa : (a.ad_name == r.ad_name) = false :=
        beq_eq_false_iff_ne.mpr (ha r hrt)
      rw [List.filter_cons]
      simp [hfa, ih ht hrt]

theorem flatMap_eq_map_of {α β : Type _} {l : List α} {f : α → List β} {g : α → β}
    (h : ∀ a ∈ l, f a = [g a]) : l.flatMap f = l.map g := by
  induction l with
  | nil => rfl
  | cons a t ih =>
    rw [List.flatMap_cons, List.map_cons, h a (List.mem_cons_self a t),
      ih (fun b hb => h b (List.mem_cons_of_mem _ hb)), List.singleton_append]

theorem c10_characterization (df : List DerivedRow)
    (hnd : df.Pairwise (fun a b => a.ad_name ≠ b.ad_name))
    (hne : ∃ r ∈ df, compFilter r = true) :
    rank_composite_score df = df.map (fun r =>
      if compFilter r then
        { toDerivedRow := r,
          Creative_Score := some ((creativeScore (df.filter compFilter) r).getD 0) }
      else { toDerivedRow := r, Creative_Score := some 0 }) := by
  have hfne : (df.filter compFilter).isEmpty = false := by
    obtain ⟨r, hr, hcr⟩ := hne
    have hmem : r ∈ df.filter compFilter := List.mem_filter.mpr ⟨hr, hcr⟩
    cases hEE : (df.filter compFilter).isEmpty with
    | false => rfl
    | true =>
      exfalso
      rw [List.isEmpty_iff.mp hEE] at hmem
      cases hmem
  rw [rank_composite_score_eq_flatMap hfne]
  apply flatMap_eq_map_of
  intro r hr
  have hms : (df.filter compFilter).filter (fun c => c.ad_name == r.ad_name)
      = if compFilter r then [r] else [] := by
    rw [filter_filter_and]
    exact filter_nameEq hnd hr compFilter
  cases hcf : compFilter r <;> simp [hms, hcf]

/-- Claim C10 is false as stated: with two rows sharing the `ad_name`
"A", one excluded from ranking (spend 40) and one included (score 2/5),
the left merge on `ad_name` gives the excluded row the included row's
score 2/5 instead of 0. -/
theorem c10_counterexample :
    compFilter c10rowX = false ∧
    (rank_composite_score [c10rowX, c10rowY]).map (fun x => x.toDerivedRow)
      = [c10rowX, c10rowY] ∧
    (rank_composite_score [c10rowX, c10rowY]).map (fun x => x.Creative_Score)
      = [some (2/5), some (2/5)] ∧
    (2 : ℚ)/5 ≠ 0 := by
  refine ⟨?_, ?_, ?_, by norm_num⟩
  · norm_num [compFilter, pdGt, pdLt, c10rowX, MIN_SPEND_FOR_RANKING, MAX_FREQUENCY]
  · norm_num [rank_composite_score, compFilter, pdGt, pdLt, c10rowX, c10rowY,
      MIN_SPEND_FOR_RANKING, MAX_FREQUENCY, List.filter, List.flatMap,
      creativeScore, oadd, omul, roas_norm, thruplay_norm, normalize_by_max,
      colMax, List.filterMap]
  · norm_num [rank_composite_score, compFilter, pdGt, pdLt, c10rowX, c10rowY,
      MIN_SPEND_FOR_RANKING, MAX_FREQUENCY, List.filter, List.flatMap,
      creativeScore, oadd, omul, roas_norm, thruplay_norm, normalize_by_max,
      colMax, List.filterMap]

/-- Claim C10 (amended): provided the `ad_name` values are pairwise
distinct and at least one record passes the ranking filter, the merged
dataframe returned by `rank_composite_score` carries exactly the input
rows in order, and every row excluded by the internal filter
(spend ≤ MIN_SPEND_FOR_RANKING or frequency ≥ MAX_FREQUENCY, with missing
values failing the comparisons) has `Creative_Score` exactly 0. -/
theorem c10_merge_amended (df : List DerivedRow)
    (hnd : df.Pairwise (fun a b => a.ad_name ≠ b.ad_name))
    (hne : ∃ r ∈ df, compFilter r = true) :
    (rank_composite_score df).map (fun x => x.toDerivedRow) = df ∧
    (∀ x ∈ rank_composite_score df, compFilter x.toDerivedRow = false →
      x.Creative_Score = some 0) := by
  have hchar := c10_characterization df hnd hne
  constructor
  · rw [hchar, List.map_map]
    have hcomp : ((fun x : ScoredRow => x.toDerivedRow) ∘ (fun r =>
        if compFilter r then
          { toDerivedRow := r,
            Creative_Score := some ((creativeScore (df.filter compFilter) r).getD 0) }
        else { toDerivedRow := r, Creative_Score := some 0 })) = id := by
      funext r
      by_cases h : compFilter r = true <;> simp [h]
    rw [hcomp, List.map_id]
  · intro x hx hcf
    rw [hchar] at hx
    obtain ⟨r, hr, rfl⟩ := List.mem_map.mp hx
    have hcfr : compFilter r = false := by
      by_cases h : compFilter r = true
      · rw [if_pos h] at hcf
        rw [h] at hcf
        cases hcf
      · simpa using h
    simp [hcfr]

/-- Witness for `c10_merge_amended` at a two-row batch with distinct
names, one row excluded and one included. -/
theorem c10_merge_amended_witness :
    ((rank_composite_score [c10wA, c10wB]).map (fun x => x.toDerivedRow)
      = [c10wA, c10wB]) ∧
    (∀ x ∈ rank_composite_score [c10wA, c10wB], compFilter x.toDerivedRow = false →
      x.Creative_Score = some 0) :=
  c10_merge_amended [c10wA, c10wB]
    (by simp [List.pairwise_cons, c10wA, c10wB])
    ⟨c10wB, by simp, by norm_num [compFilter, pdGt, pdLt, c10wB,
      MIN_SPEND_FOR_RANKING, MAX_FREQUENCY]⟩

end CreativePipeline

namespace AiAnalysis

/-! ### Lemmas about the sorted tag summary. -/

theorem mem_insertDesc {g x : TagGroup} : ∀ {l : List TagGroup},
    x ∈ insertDesc g l ↔ x = g ∨ x ∈ l := by
  intro l
  induction l with
  | nil => simp [insertDesc]
  | cons h t ih =>
    by_cases hlt : h.mean < g.mean
    · simp [insertDesc, hlt]
    · simp [insertDesc, hlt, ih]
      tauto

theorem pairwise_insertDesc {g : TagGroup} {l : List TagGroup}
    (hl : l.Pairwise (fun a b => b.mean ≤ a.mean)) :
    (insertDesc g l).Pairwise (fun a b => b.mean ≤ a.mean) := by
  induction l with
  | nil => simp [insertDesc]
  | cons h t ih =>
    rw [List.pairwise_cons] at hl
    obtain ⟨hh, ht⟩ := hl
    by_cases hlt : h.mean < g.mean
    · simp only [insertDesc, if_pos hlt]
      refine List.pairwise_cons.mpr ⟨?_, List.pairwise_cons.mpr ⟨hh, ht⟩⟩
      intro x hx
      rcases List.mem_cons.mp hx with rfl | hxt
      · exact le_of_lt hlt
      · exact (hh x hxt).trans (le_of_lt hlt)
    · simp only [insertDesc, if_neg hlt]
      refine List.pairwise_cons.mpr ⟨?_, ih ht⟩
      intro x hx
      rcases mem_insertDesc.mp hx with rfl | hxt
      · exact le_of_not_lt hlt
      · exact hh x hxt

theorem sortByMeanDesc_pairwise : ∀ l : List TagGroup,
    (sortByMeanDesc l).Pairwise (fun a b => b.mean ≤ a.mean)
  | [] => by simp [sortByMeanDesc]
  | g :: t => by
    simp only [sortByMeanDesc]
    exact pairwise_insertDesc (sortByMeanDesc_pairwise t)

theorem qualifying_pairwise (recs : List (String × ℚ)) :
    (qualifying recs).Pairwise (fun a b => b.mean ≤ a.mean) :=
  (sortByMeanDesc_pairwise _).filter _

theorem lastMean_mem : ∀ (g : TagGroup) (l : List TagGroup),
    ∃ x, x ∈ g :: l ∧ lastMean g l = x.mean
  | g, [] => ⟨g, by simp, rfl⟩
  | g, h :: t => by
    obtain ⟨x, hx, he⟩ := lastMean_mem h t
    exact ⟨x, List.mem_cons_of_mem _ hx, he⟩

/-! ### Claim C5: the hypothesis thresholds of the tag correlator. -/

/-- Claim C5: for any tag dimension, no hypothesis is emitted with fewer
than two qualifying (count ≥ 3) groups; with at least two and a nonzero
worst mean, a winning hypothesis is emitted iff the relative difference
`(best_mean - worst_mean) / worst_mean * 100` exceeds 10, a losing one
iff it is below -10, and none otherwise. -/
theorem c5_hypothesis_thresholds (recs : List (String × ℚ)) :
    ((qualifying recs).length < 2 → analyzeDimension recs = none) ∧
    (2 ≤ (qualifying recs).length → worstMean recs ≠ 0 →
      ((analyzeDimension recs = some Hyp.winning ↔
          10 < (bestMean recs - worstMean recs) / worstMean recs * 100) ∧
       (analyzeDimension recs = some Hyp.losing ↔
          (bestMean recs - worstMean recs) / worstMean recs * 100 < -10) ∧
       (analyzeDimension recs = none ↔
          (¬ 10 < (bestMean recs - worstMean recs) / worstMean recs * 100 ∧
           ¬ (bestMean recs - worstMean recs) / worstMean recs * 100 < -10)))) := by
  rcases hq : qualifying recs with _ | ⟨best, _ | ⟨g2, rest⟩⟩
  · constructor
    · intro _
      simp [analyzeDimension, hq]
    · intro h2 _
      norm_num at h2
  · constructor
    · intro _
      simp [analyzeDimension, hq]
    · intro h2 _
      norm_num at h2
  · constructor
    · intro hlen
      exfalso
      simp only [List.length_cons] at hlen
      omega
    · intro _ hw0
      have hb : bestMean recs = best.mean := by simp [bestMean, hq]
      have hw : worstMean recs = lastMean g2 rest := by simp [worstMean, hq, lastMean]
      rw [hw] at hw0
      rw [hb, hw]
      have hval : analyzeDimension recs =
          (if 10 < (best.mean - lastMean g2 rest) / lastMean g2 rest * 100 then
            some Hyp.winning
          else if (best.mean - lastMean g2 rest) / lastMean g2 rest * 100 < -10 then
            some Hyp.losing
          else none) := by
        simp only [analyzeDimension, hq]
        rw [if_neg hw0]
      rw [hval]
      split_ifs with h10 hng
      · have hnot : ¬ (best.mean - lastMean g2 rest) / lastMean g2 rest * 100 < -10 := by
          linarith
        simp [h10, hnot]
      · simp [h10, hng]
      · simp [h10, hng]

/-- Witness for `c5_hypothesis_thresholds`: on `recs5` (qualifying group
means 2 and 1) the relative difference is 100 and a winning hypothesis is
emitted. -/
theorem qualifying_recs5 :
    qualifying recs5 = [⟨"fast", 2, 3⟩, ⟨"slow", 1, 3⟩] := by
  norm_num [qualifying, sortByMeanDesc, insertDesc, tagSummary, distinctTags,
    groupScores, recs5, List.filter_cons, List.filter_nil, List.foldr,
    show ("fast" : String) ≠ "slow" from by decide,
    show ("slow" : String) ≠ "fast" from by decide]

theorem c5_hypothesis_thresholds_witness :
    analyzeDimension recs5 = some Hyp.winning := by
  have h2 : 2 ≤ (qualifying recs5).length := by
    rw [qualifying_recs5]
    norm_num
  have hw0 : worstMean recs5 ≠ 0 := by
    norm_num [worstMean, qualifying_recs5, lastMean]
  refine (((c5_hypothesis_thresholds recs5).2 h2 hw0).1).mpr ?_
  norm_num [bestMean, worstMean, qualifying_recs5, lastMean]

/-! ### Claim C9: the losing branch needs a negative worst mean. -/

/-- Claim C9: with at least two qualifying groups, the sorted order makes
the best mean at least the worst mean; hence with a positive worst mean
the relative difference is non-negative and the losing branch is
unreachable, and a losing hypothesis forces a negative worst mean. -/
theorem c9_losing_only_negative (recs : List (String × ℚ))
    (h2 : 2 ≤ (qualifying recs).length) :
    worstMean recs ≤ bestMean recs ∧
    (0 < worstMean recs →
      0 ≤ (bestMean recs - worstMean recs) / worstMean recs ∧
      analyzeDimension recs ≠ some Hyp.losing) ∧
    (analyzeDimension recs = some Hyp.losing → worstMean recs < 0) := by
  rcases hq : qualifying recs with _ | ⟨best, _ | ⟨g2, rest⟩⟩
  · rw [hq] at h2
    norm_num at h2
  · rw [hq] at h2
    norm_num at h2
  · have hb : bestMean recs = best.mean := by simp [bestMean, hq]
    have hw : worstMean recs = lastMean g2 rest := by simp [worstMean, hq, lastMean]
    have hble : lastMean g2 rest ≤ best.mean := by
      have hs := qualifying_pairwise recs
      rw [hq, List.pairwise_cons] at hs
      obtain ⟨hbest, _⟩ := hs
      obtain ⟨x, hx, he⟩ := lastMean_mem g2 rest
      rw [he]
      exact hbest x hx
    refine ⟨by rw [hb, hw]; exact hble, ?_, ?_⟩
    · rw [hb, hw]
      intro hwpos
      have hw0 : ¬ lastMean g2 rest = 0 := ne_of_gt hwpos
      constructor
      · exact div_nonneg (by linarith) (le_of_lt hwpos)
      · simp only [analyzeDimension, hq]
        rw [if_neg hw0]
        have hd : 0 ≤ (best.mean - lastMean g2 rest) / lastMean g2 rest * 100 :=
          mul_nonneg (div_nonneg (by linarith) (le_of_lt hwpos)) (by norm_num)
        by_cases h10 : 10 < (best.mean - lastMean g2 rest) / lastMean g2 rest * 100
        · rw [if_pos h10]
          simp
        · rw [if_neg h10, if_neg (by linarith)]
          simp
    · intro hlos
      rw [hw]
      simp only [analyzeDimension, hq] at hlos
      by_cases hw0 : lastMean g2 rest = 0
      · rw [if_pos hw0] at hlos
        by_cases hbp : 0 < best.mean
        · rw [if_pos hbp] at hlos
          simp at hlos
        · rw [if_neg hbp] at hlos
          by_cases hbn : best.mean < 0
          · exfalso
            rw [hw0] at hble
            linarith
          · rw [if_neg hbn] at hlos
            cases hlos
      · rw [if_neg hw0] at hlos
        by_cases h10 : 10 < (best.mean - lastMean g2 rest) / lastMean g2 rest * 100
        · rw [if_pos h10] at hlos
          simp at hlos
        · rw [if_neg h10] at hlos
          by_cases hneg : (best.mean - lastMean g2 rest) / lastMean g2 rest * 100 < -10
          · rw [if_pos hneg] at hlos
            by_contra hge
            push_neg at hge
            have hwpos : 0 < lastMean g2 rest := lt_of_le_of_ne hge (Ne.symm hw0)
            have hd : 0 ≤ (best.mean - lastMean g2 rest) / lastMean g2 rest * 100 :=
              mul_nonneg (div_nonneg (by linarith) (le_of_lt hwpos)) (by norm_num)
            linarith
          · rw [if_neg hneg] at hlos
            cases hlos

/-- Witness for `c9_losing_only_negative`: on `recs9` (qualifying means
6 and 3, worst mean positive) no losing hypothesis is emitted; on
`recs9neg` the theorem's implication applies at a dimension whose losing
branch is reachable. -/
theorem qualifying_recs9 :
    qualifying recs9 = [⟨"Y", 6, 3⟩, ⟨"X", 3, 3⟩] := by
  norm_num [qualifying, sortByMeanDesc, insertDesc, tagSummary, distinctTags,
    groupScores, recs9, List.filter_cons, List.filter_nil, List.foldr,
    show ("X" : String) ≠ "Y" from by decide,
    show ("Y" : String) ≠ "X" from by decide]

theorem qualifying_recs9neg :
    qualifying recs9neg = [⟨"P", 0, 3⟩, ⟨"N", -1, 3⟩] := by
  norm_num [qualifying, sortByMeanDesc, insertDesc, tagSummary, distinctTags,
    groupScores, recs9neg, List.filter_cons, List.filter_nil, List.foldr,
    show ("P" : String) ≠ "N" from by decide,
    show ("N" : String) ≠ "P" from by decide]

theorem c9_losing_only_negative_witness :
    (worstMean recs9 ≤ bestMean recs9 ∧
      analyzeDimension recs9 ≠ some Hyp.losing) ∧
    (analyzeDimension recs9neg = some Hyp.losing → worstMean recs9neg < 0) := by
  constructor
  · have h := c9_losing_only_negative recs9 (by rw [qualifying_recs9]; norm_num)
    refine ⟨h.1, (h.2.1 ?_).2⟩
    norm_num [worstMean, qualifying_recs9, lastMean]
  · exact (c9_losing_only_negative recs9neg
      (by rw [qualifying_recs9neg]; norm_num)).2.2

end AiAnalysis
